import Mathlib

/-
Shallow embedding of the request handlers of panw-api-ollama
(src/handlers/chat.rs and src/handlers/generate.rs), a security-enforcing
reverse proxy between API clients and an Ollama inference backend.

External collaborators (the security client's assess_content, the Ollama
client's forward, JSON parsing/serialization, and the wall clock) are
modelled as components of an environment `Env`.  Each handler is embedded
as a pure function from the environment and the request to a pair of
 - an outcome (the returned HTTP response, a returned ApiError, or a
   process abort caused by `Option::unwrap` on `None`), and
 - the trace of external calls it makes (assessment-gateway calls with
   their is_prompt flag, and backend forward calls), in order.

Logging (`info!`, `debug!`, `error!`, `log_llm_metrics`) is modelled as a
no-op: the tracing macros evaluate their fields lazily and emit no
observable effect relevant to the claims.
-/

namespace PanwOllama

/-- A chat message: src/types (mirrored from the handlers' use). -/
structure Message where
  role : String
  content : String
deriving DecidableEq

/-- ChatRequest: model, ordered messages, optional stream flag. -/
structure ChatRequest where
  model : String
  messages : List Message
  stream : Option Bool
deriving DecidableEq

/-- GenerateRequest: model, single prompt, optional stream flag. -/
structure GenerateRequest where
  model : String
  prompt : String
  stream : Option Bool
deriving DecidableEq

/-- ChatResponse as constructed in chat.rs (model, created_at, message, done). -/
structure ChatResponse where
  model : String
  created_at : String
  message : Message
  done : Bool
deriving DecidableEq

/-- GenerateResponse as constructed in generate.rs
(model, created_at, response, context, done). -/
structure GenerateResponse where
  model : String
  created_at : String
  response : String
  context : Option (List Nat)
  done : Bool
deriving DecidableEq

/-- The security client's verdict: is_safe, is_masked, final_content, and the
violation detail consumed by the violation-message formatter. -/
structure AssessmentResult where
  is_safe : Bool
  is_masked : Bool
  final_content : String
  violation_detail : Option String
deriving DecidableEq

/-- Errors returned by handlers (ApiError in src/handlers): assessment-service
failures propagated by `?`, backend failures, and internal errors from
body reads / parses. -/
inductive ApiError where
  | assessmentServiceError (msg : String)
  | backendUnavailableError (msg : String)
  | internalError (msg : String)
deriving DecidableEq

/-- One observable external call made by a handler: an assessment-gateway
call (content, model, is_prompt flag) or a backend forward (path). -/
inductive ExtCall where
  | assess (content : String) (model : String) (flag : Bool)
  | forward (path : String)
deriving DecidableEq

/-- The HTTP response a handler returns to the client.
`json bytes` is `build_json_response` over exactly those body bytes
(for pass-through, the backend's bytes verbatim; for the masked generate
branch, the re-serialized bytes).  `chatViolation` / `generateViolation`
are `build_violation_response` over the typed body: a violation-marked
response whose body is the serialization of that record.  The streaming
constructors stand for the stream set up by `handle_streaming_request`. -/
inductive HttpResponse where
  | json (bytes : List Nat)
  | chatViolation (r : ChatResponse)
  | generateViolation (r : GenerateResponse)
  | chatStreaming (path : String)
  | generateStreaming (path : String)
deriving DecidableEq

/-- Outcome of a handler: `ok` a response, `err` an ApiError, or `crash`,
modelling a Rust process abort (`Option::unwrap` on `None`). -/
inductive Outcome (α : Type) where
  | ok (v : α)
  | err (e : ApiError)
  | crash
deriving DecidableEq

/-- The environment of external collaborators:
`assess_content c m b` is the security client's verdict for content `c`,
model `m`, is_prompt flag `b`; `forward_chat` / `forward_generate` are the
Ollama client's forward plus the body read, yielding body bytes;
`parse_chat` / `parse_generate` are serde_json typed deserialization;
`serialize_generate` is serde_json serialization of a GenerateResponse;
`chat_stream_texts` / `generate_stream_texts` are the accumulated
backend-produced texts the streaming screen submits for assessment;
`now` is the rfc3339 timestamp `chrono::Utc::now().to_rfc3339()`. -/
structure Env where
  assess_content : String → String → Bool → Except ApiError AssessmentResult
  forward_chat : ChatRequest → Except ApiError (List Nat)
  forward_generate : GenerateRequest → Except ApiError (List Nat)
  parse_chat : List Nat → Option ChatResponse
  parse_generate : List Nat → Option GenerateResponse
  serialize_generate : GenerateResponse → List Nat
  chat_stream_texts : ChatRequest → List String
  generate_stream_texts : GenerateRequest → List String
  now : String

/-- Modelled from the spec: `format_security_violation_message` lives in
src/handlers/utils.rs, which is not among the provided sources.  Per the
spec it produces the standard violation message derived from the verdict's
detail; the exact wording is immaterial to the claims. -/
def format_security_violation_message (a : AssessmentResult) : String :=
  match a.violation_detail with
  | some d => "This message was blocked by AI security policy: " ++ d
  | none => "This message was blocked by AI security policy."

/-- Modelled from the spec: `build_violation_response` (src/handlers/utils.rs,
not among the provided sources) builds a violation-marked HTTP response whose
body is the serialization of the given typed response.  Chat variant. -/
def build_violation_response_chat (r : ChatResponse) : HttpResponse :=
  HttpResponse.chatViolation r

/-- Modelled from the spec: `build_violation_response`, generate variant. -/
def build_violation_response_generate (r : GenerateResponse) : HttpResponse :=
  HttpResponse.generateViolation r

/-- Modelled from the spec: `build_json_response` (src/handlers/utils.rs, not
among the provided sources) wraps the given body bytes into a plain JSON
HTTP response, without modifying them. -/
def build_json_response (bytes : List Nat) : HttpResponse :=
  HttpResponse.json bytes

/-- Modelled from the spec: `handle_streaming_request` (src/handlers/utils.rs,
not among the provided sources).  Per the spec it forwards the request to the
backend at `path` and assesses the accumulating backend-produced text with the
caller-supplied is_prompt flag; we record the forward call and one assessment
call per accumulated text.  Chat variant. -/
def handle_streaming_request_chat (env : Env) (request : ChatRequest)
    (path : String) (model : String) (flag : Bool) :
    Outcome HttpResponse × List ExtCall :=
  (Outcome.ok (HttpResponse.chatStreaming path),
   ExtCall.forward path ::
     (env.chat_stream_texts request).map fun c => ExtCall.assess c model flag)

/-- Modelled from the spec: `handle_streaming_request`, generate variant. -/
def handle_streaming_request_generate (env : Env) (request : GenerateRequest)
    (path : String) (model : String) (flag : Bool) :
    Outcome HttpResponse × List ExtCall :=
  (Outcome.ok (HttpResponse.generateStreaming path),
   ExtCall.forward path ::
     (env.generate_stream_texts request).map fun c => ExtCall.assess c model flag)

/-- The message loop of `assess_chat_messages` (chat.rs lines 98-133):
assess each message in order with is_prompt=true; propagate assessment
errors; on the first unsafe verdict build the violation ChatResponse
(role "assistant", done=true, content the formatted violation message)
and stop; otherwise continue.  Returns `some response` when a violation
response was built, `none` when all messages passed. -/
def assess_messages_loop (env : Env) (model : String) :
    List Message → Outcome (Option HttpResponse) × List ExtCall
  | [] => (Outcome.ok none, [])
  | m :: rest =>
    match env.assess_content m.content model true with
    | Except.error e => (Outcome.err e, [ExtCall.assess m.content model true])
    | Except.ok a =>
      if a.is_safe then
        ((assess_messages_loop env model rest).1,
         ExtCall.assess m.content model true ::
           (assess_messages_loop env model rest).2)
      else
        (Outcome.ok (some (build_violation_response_chat
          { model := model
            created_at := env.now
            message := { role := "assistant"
                         content := format_security_violation_message a }
            done := true })),
         [ExtCall.assess m.content model true])

/-- `assess_chat_messages` (chat.rs lines 98-133). -/
def assess_chat_messages (env : Env) (request : ChatRequest) :
    Outcome (Option HttpResponse) × List ExtCall :=
  assess_messages_loop env request.model request.messages

/-- `assess_generate_prompt` (generate.rs lines 69-95): assess the single
prompt with is_prompt=true; on an unsafe verdict build the violation
GenerateResponse (done=true, context None, response the formatted
violation message). -/
def assess_generate_prompt (env : Env) (request : GenerateRequest) :
    Outcome (Option HttpResponse) × List ExtCall :=
  match env.assess_content request.prompt request.model true with
  | Except.error e => (Outcome.err e, [ExtCall.assess request.prompt request.model true])
  | Except.ok a =>
    if a.is_safe then
      (Outcome.ok none, [ExtCall.assess request.prompt request.model true])
    else
      (Outcome.ok (some (build_violation_response_generate
        { model := request.model
          created_at := env.now
          response := format_security_violation_message a
          context := none
          done := true })),
       [ExtCall.assess request.prompt request.model true])

/-- `handle_non_streaming_chat` (chat.rs lines 151-190): forward to
"/api/chat", read and parse the body, assess the response message content
with is_prompt=false; unsafe => violation response with content replaced
by the formatted violation message; safe => the original body bytes
verbatim (no is_masked handling on this path). -/
def handle_non_streaming_chat (env : Env) (request : ChatRequest) :
    Outcome HttpResponse × List ExtCall :=
  match env.forward_chat request with
  | Except.error e => (Outcome.err e, [ExtCall.forward "/api/chat"])
  | Except.ok body_bytes =>
    match env.parse_chat body_bytes with
    | none =>
      (Outcome.err (ApiError.internalError "Failed to parse response"),
       [ExtCall.forward "/api/chat"])
    | some response_body =>
      match env.assess_content response_body.message.content request.model false with
      | Except.error e =>
        (Outcome.err e,
         [ExtCall.forward "/api/chat",
          ExtCall.assess response_body.message.content request.model false])
      | Except.ok a =>
        if !a.is_safe then
          (Outcome.ok (build_violation_response_chat
            { response_body with
              message := { role := response_body.message.role
                           content := format_security_violation_message a } }),
           [ExtCall.forward "/api/chat",
            ExtCall.assess response_body.message.content request.model false])
        else
          (Outcome.ok (build_json_response body_bytes),
           [ExtCall.forward "/api/chat",
            ExtCall.assess response_body.message.content request.model false])

/-- `handle_non_streaming_generate` (generate.rs lines 108-167): forward to
"/api/generate", read and parse the body, assess the response text with
is_prompt=false; unsafe => violation response; safe and masked => replace
the response with final_content, re-serialize, return those bytes;
safe and unmasked => the original body bytes verbatim. -/
def handle_non_streaming_generate (env : Env) (request : GenerateRequest) :
    Outcome HttpResponse × List ExtCall :=
  match env.forward_generate request with
  | Except.error e => (Outcome.err e, [ExtCall.forward "/api/generate"])
  | Except.ok body_bytes =>
    match env.parse_generate body_bytes with
    | none =>
      (Outcome.err (ApiError.internalError "Failed to parse response"),
       [ExtCall.forward "/api/generate"])
    | some response_body =>
      match env.assess_content response_body.response request.model false with
      | Except.error e =>
        (Outcome.err e,
         [ExtCall.forward "/api/generate",
          ExtCall.assess response_body.response request.model false])
      | Except.ok a =>
        if !a.is_safe then
          (Outcome.ok (build_violation_response_generate
            { response_body with
              response := format_security_violation_message a }),
           [ExtCall.forward "/api/generate",
            ExtCall.assess response_body.response request.model false])
        else if a.is_masked then
          (Outcome.ok (build_json_response
            (env.serialize_generate
              { response_body with response := a.final_content })),
           [ExtCall.forward "/api/generate",
            ExtCall.assess response_body.response request.model false])
        else
          (Outcome.ok (build_json_response body_bytes),
           [ExtCall.forward "/api/generate",
            ExtCall.assess response_body.response request.model false])

/-- `handle_streaming_chat` (chat.rs lines 206-222): delegates to the generic
streaming handler with path "/api/chat" and is_prompt=false. -/
def handle_streaming_chat (env : Env) (request : ChatRequest) :
    Outcome HttpResponse × List ExtCall :=
  handle_streaming_request_chat env request "/api/chat" request.model false

/-- `handle_streaming_generate` (generate.rs lines 180-196): delegates to the
generic streaming handler with path "/api/generate" and is_prompt=false. -/
def handle_streaming_generate (env : Env) (request : GenerateRequest) :
    Outcome HttpResponse × List ExtCall :=
  handle_streaming_request_generate env request "/api/generate" request.model false

/-- `handle_chat` (chat.rs lines 50-77): screen all messages; on a violation
return that response; otherwise route on `request.stream.unwrap()`, which
aborts the process when `stream` is `None` (the defaulting assignment
`request.stream = Some(false)` at line 55 is commented out). -/
def handle_chat (env : Env) (request : ChatRequest) :
    Outcome HttpResponse × List ExtCall :=
  match assess_chat_messages env request with
  | (Outcome.err e, t) => (Outcome.err e, t)
  | (Outcome.crash, t) => (Outcome.crash, t)
  | (Outcome.ok (some resp), t) => (Outcome.ok resp, t)
  | (Outcome.ok none, t) =>
    match request.stream with
    | none => (Outcome.crash, t)
    | some true =>
      ((handle_streaming_chat env request).1,
       t ++ (handle_streaming_chat env request).2)
    | some false =>
      ((handle_non_streaming_chat env request).1,
       t ++ (handle_non_streaming_chat env request).2)

/-- `handle_generate` (generate.rs lines 33-55): screen the prompt; on a
violation return that response; otherwise route on `request.stream.unwrap()`,
which aborts the process when `stream` is `None` (the defaulting assignment
at line 38 is commented out). -/
def handle_generate (env : Env) (request : GenerateRequest) :
    Outcome HttpResponse × List ExtCall :=
  match assess_generate_prompt env request with
  | (Outcome.err e, t) => (Outcome.err e, t)
  | (Outcome.crash, t) => (Outcome.crash, t)
  | (Outcome.ok (some resp), t) => (Outcome.ok resp, t)
  | (Outcome.ok none, t) =>
    match request.stream with
    | none => (Outcome.crash, t)
    | some true =>
      ((handle_streaming_generate env request).1,
       t ++ (handle_streaming_generate env request).2)
    | some false =>
      ((handle_non_streaming_generate env request).1,
       t ++ (handle_non_streaming_generate env request).2)

/-- The security client returned a safe verdict for this prompt content. -/
def SafeVerdict (env : Env) (model : String) (content : String) : Prop :=
  ∃ a, env.assess_content content model true = Except.ok a ∧ a.is_safe = true

/-- The security client returned an unsafe verdict for this prompt content. -/
def UnsafeVerdict (env : Env) (model : String) (content : String) : Prop :=
  ∃ a, env.assess_content content model true = Except.ok a ∧ a.is_safe = false

/-- `c` is a backend-produced text of the chat pipeline for this request:
either the content field of the parsed non-streaming backend body, or one of
the accumulated texts of the backend's chunk stream. -/
def ChatBackendText (env : Env) (req : ChatRequest) (c : String) : Prop :=
  (∃ bytes body, env.forward_chat req = Except.ok bytes ∧
     env.parse_chat bytes = some body ∧ c = body.message.content)
  ∨ c ∈ env.chat_stream_texts req

/-- `c` is a backend-produced text of the generate pipeline for this request. -/
def GenerateBackendText (env : Env) (req : GenerateRequest) (c : String) : Prop :=
  (∃ bytes body, env.forward_generate req = Except.ok bytes ∧
     env.parse_generate bytes = some body ∧ c = body.response)
  ∨ c ∈ env.generate_stream_texts req

/-- A concrete security-client behavior used to exercise the handlers:
"bad" is judged unsafe (with masking data present, to exercise priority),
"boom" makes the assessment service fail, "maskme" is judged safe but
masked, everything else is judged safe and unmasked. -/
def demoAssess (c : String) : Except ApiError AssessmentResult :=
  if c = "bad" then
    Except.ok { is_safe := false, is_masked := true, final_content := "fc"
                violation_detail := some "injection" }
  else if c = "boom" then
    Except.error (ApiError.assessmentServiceError "security service down")
  else if c = "maskme" then
    Except.ok { is_safe := true, is_masked := true
                final_content := "masked-out", violation_detail := none }
  else
    Except.ok { is_safe := true, is_masked := false, final_content := ""
                violation_detail := none }

/-- A concrete chat backend: the returned body bytes depend on the model. -/
def demoForwardChat (req : ChatRequest) : Except ApiError (List Nat) :=
  if req.model = "mmask" then Except.ok [10, 20]
  else if req.model = "mbad" then Except.ok [30]
  else if req.model = "mboom" then Except.ok [40]
  else Except.ok [1, 2]

/-- A concrete generate backend: body bytes depend on the model. -/
def demoForwardGenerate (req : GenerateRequest) : Except ApiError (List Nat) :=
  if req.model = "mmask" then Except.ok [11, 21]
  else if req.model = "mbad" then Except.ok [31]
  else if req.model = "mboom" then Except.ok [41]
  else Except.ok [3, 4]

/-- A concrete chat-body deserializer keyed on the bytes. -/
def demoParseChat (bytes : List Nat) : Option ChatResponse :=
  if bytes = [10, 20] then
    some { model := "m", created_at := "t1"
           message := { role := "assistant", content := "maskme" }, done := true }
  else if bytes = [30] then
    some { model := "m", created_at := "t1"
           message := { role := "assistant", content := "bad" }, done := true }
  else if bytes = [40] then
    some { model := "m", created_at := "t1"
           message := { role := "assistant", content := "boom" }, done := true }
  else
    some { model := "m", created_at := "t1"
           message := { role := "assistant", content := "hello" }, done := true }

/-- A concrete generate-body deserializer keyed on the bytes. -/
def demoParseGenerate (bytes : List Nat) : Option GenerateResponse :=
  if bytes = [11, 21] then
    some { model := "m", created_at := "t1", response := "maskme"
           context := none, done := true }
  else if bytes = [31] then
    some { model := "m", created_at := "t1", response := "bad"
           context := none, done := true }
  else if bytes = [41] then
    some { model := "m", created_at := "t1", response := "boom"
           context := none, done := true }
  else
    some { model := "m", created_at := "t1", response := "hello"
           context := none, done := true }

/-- A concrete serializer for GenerateResponse (any injective-enough concrete
encoding will do for exercising the handlers). -/
def demoSerializeGenerate (r : GenerateResponse) : List Nat :=
  [r.response.length, if r.done then 1 else 0]

/-- The concrete environment used by the witnesses and counterexamples. -/
def envDemo : Env where
  assess_content := fun c _ _ => demoAssess c
  forward_chat := demoForwardChat
  forward_generate := demoForwardGenerate
  parse_chat := demoParseChat
  parse_generate := demoParseGenerate
  serialize_generate := demoSerializeGenerate
  chat_stream_texts := fun _ => ["chunk-one", "chunk-one chunk-two"]
  generate_stream_texts := fun _ => ["tok-one", "tok-one tok-two"]
  now := "2026-01-01T00:00:00Z"

/-- A chat request whose second message is judged unsafe by `envDemo`. -/
def reqUnsafeChat : ChatRequest :=
  { model := "m"
    messages := [{ role := "user", content := "hello" },
                 { role := "system", content := "bad" }]
    stream := some false }

/-- A generate request whose prompt is judged unsafe by `envDemo`. -/
def reqUnsafeGen : GenerateRequest :=
  { model := "m", prompt := "bad", stream := some false }

/-- A chat request whose messages are all judged safe by `envDemo`. -/
def reqAllSafeChat : ChatRequest :=
  { model := "m"
    messages := [{ role := "user", content := "hello" },
                 { role := "user", content := "again" }]
    stream := some false }

/-- A chat request with the `stream` field absent. -/
def reqStreamNoneChat : ChatRequest :=
  { model := "m", messages := [{ role := "user", content := "hello" }]
    stream := none }

/-- A generate request with the `stream` field absent. -/
def reqStreamNoneGen : GenerateRequest :=
  { model := "m", prompt := "hello", stream := none }

/-- A chat request whose message makes the assessment service fail. -/
def reqBoomChat : ChatRequest :=
  { model := "m", messages := [{ role := "user", content := "boom" }]
    stream := some false }

/-- A generate request whose backend answer makes the assessment service
fail (model "mboom" routes `demoForwardGenerate` to body [41]). -/
def reqBoomGen : GenerateRequest :=
  { model := "mboom", prompt := "hi", stream := some false }

/-- The parsed backend body for `reqBoomGen`. -/
def bodyBoomGen : GenerateResponse :=
  { model := "m", created_at := "t1", response := "boom"
    context := none, done := true }

/-- A generate request whose prompt makes the assessment service fail. -/
def reqBoomGenPrompt : GenerateRequest :=
  { model := "m", prompt := "boom", stream := some false }

/-- A chat request whose backend answer makes the assessment service fail
(model "mboom" routes `demoForwardChat` to body [40]). -/
def reqBoomChatResp : ChatRequest :=
  { model := "mboom", messages := [{ role := "user", content := "hi" }]
    stream := some false }

/-- The parsed backend body for `reqBoomChatResp`. -/
def bodyBoomChat : ChatResponse :=
  { model := "m", created_at := "t1"
    message := { role := "assistant", content := "boom" }, done := true }

/-- A chat request whose backend answer is judged safe but masked. -/
def reqMaskChat : ChatRequest :=
  { model := "mmask", messages := [{ role := "user", content := "hi" }]
    stream := some false }

/-- The parsed backend body for `reqMaskChat`. -/
def respMaskChat : ChatResponse :=
  { model := "m", created_at := "t1"
    message := { role := "assistant", content := "maskme" }, done := true }

/-- A generate request whose backend answer is judged safe but masked. -/
def reqMaskGen : GenerateRequest :=
  { model := "mmask", prompt := "hi", stream := some false }

/-- The parsed backend body for `reqMaskGen`. -/
def bodyMaskGen : GenerateResponse :=
  { model := "m", created_at := "t1", response := "maskme"
    context := none, done := true }

/-- A chat request whose backend answer is judged safe and unmasked. -/
def reqPlainChat : ChatRequest :=
  { model := "m", messages := [{ role := "user", content := "hi" }]
    stream := some false }

/-- The parsed backend body for `reqPlainChat`. -/
def bodyPlainChat : ChatResponse :=
  { model := "m", created_at := "t1"
    message := { role := "assistant", content := "hello" }, done := true }

/-- A generate request whose backend answer is judged safe and unmasked. -/
def reqPlainGen : GenerateRequest :=
  { model := "m", prompt := "hi", stream := some false }

/-- The parsed backend body for `reqPlainGen`. -/
def bodyPlainGen : GenerateResponse :=
  { model := "m", created_at := "t1", response := "hello"
    context := none, done := true }

/-- A chat request whose backend answer is judged unsafe (and masked). -/
def reqBadChat : ChatRequest :=
  { model := "mbad", messages := [{ role := "user", content := "hi" }]
    stream := some false }

/-- The parsed backend body for `reqBadChat`. -/
def bodyBadChat : ChatResponse :=
  { model := "m", created_at := "t1"
    message := { role := "assistant", content := "bad" }, done := true }

/-- A generate request whose backend answer is judged unsafe (and masked). -/
def reqBadGen : GenerateRequest :=
  { model := "mbad", prompt := "hi", stream := some false }

/-- The parsed backend body for `reqBadGen`. -/
def bodyBadGen : GenerateResponse :=
  { model := "m", created_at := "t1", response := "bad"
    context := none, done := true }

/-- When every message in the list gets a safe verdict, the screening loop
passes and its trace is exactly one is_prompt=true assessment per message,
in order. -/
theorem loop_all_safe (env : Env) (model : String) :
    ∀ msgs : List Message, (∀ m ∈ msgs, SafeVerdict env model m.content) →
    assess_messages_loop env model msgs =
      (Outcome.ok none, msgs.map fun m => ExtCall.assess m.content model true) := by
  intro msgs
  induction msgs with
  | nil => intro _; rfl
  | cons m rest ih =>
    intro h
    obtain ⟨a, ha, hsafe⟩ := h m (List.mem_cons_self m rest)
    have hrest : ∀ x ∈ rest, SafeVerdict env model x.content :=
      fun x hx => h x (List.mem_cons_of_mem m hx)
    simp [assess_messages_loop, ha, hsafe, ih hrest]

/-- When the messages split as `pre ++ bad :: rest` with every message of
`pre` safe and `bad` unsafe (with verdict `a`), the screening loop stops at
`bad`: it returns the violation response built from `a` and its trace covers
exactly `pre ++ [bad]`. -/
theorem loop_first_unsafe (env : Env) (model : String) (bad : Message)
    (rest : List Message) (a : AssessmentResult)
    (ha : env.assess_content bad.content model true = Except.ok a)
    (hnotsafe : a.is_safe = false) :
    ∀ pre : List Message, (∀ m ∈ pre, SafeVerdict env model m.content) →
    assess_messages_loop env model (pre ++ bad :: rest) =
      (Outcome.ok (some (build_violation_response_chat
        { model := model
          created_at := env.now
          message := { role := "assistant"
                       content := format_security_violation_message a }
          done := true })),
       (pre ++ [bad]).map fun m => ExtCall.assess m.content model true) := by
  intro pre
  induction pre with
  | nil =>
    intro _
    simp [assess_messages_loop, ha, hnotsafe]
  | cons p ps ih =>
    intro h
    obtain ⟨b, hb, hbsafe⟩ := h p (List.mem_cons_self p ps)
    have hps : ∀ x ∈ ps, SafeVerdict env model x.content :=
      fun x hx => h x (List.mem_cons_of_mem p hx)
    simp [assess_messages_loop, hb, hbsafe, ih hps]

/-- When the messages split as `pre ++ bad :: rest` with every message of
`pre` safe and the assessment of `bad` failing with `e`, the screening loop
propagates `e` and its trace covers exactly `pre ++ [bad]`. -/
theorem loop_error (env : Env) (model : String) (bad : Message)
    (rest : List Message) (e : ApiError)
    (he : env.assess_content bad.content model true = Except.error e) :
    ∀ pre : List Message, (∀ m ∈ pre, SafeVerdict env model m.content) →
    assess_messages_loop env model (pre ++ bad :: rest) =
      (Outcome.err e,
       (pre ++ [bad]).map fun m => ExtCall.assess m.content model true) := by
  intro pre
  induction pre with
  | nil =>
    intro _
    simp [assess_messages_loop, he]
  | cons p ps ih =>
    intro h
    obtain ⟨b, hb, hbsafe⟩ := h p (List.mem_cons_self p ps)
    have hps : ∀ x ∈ ps, SafeVerdict env model x.content :=
      fun x hx => h x (List.mem_cons_of_mem p hx)
    simp [assess_messages_loop, hb, hbsafe, ih hps]

/-- Every assessment call in the screening loop's trace has is_prompt=true,
uses the request's model, and assesses the content of one of the messages. -/
theorem loop_calls (env : Env) (model : String) :
    ∀ (msgs : List Message) (c m : String) (b : Bool),
    ExtCall.assess c m b ∈ (assess_messages_loop env model msgs).2 →
    b = true ∧ m = model ∧ c ∈ msgs.map Message.content := by
  intro msgs
  induction msgs with
  | nil => intro c m b h; simp [assess_messages_loop] at h
  | cons x rest ih =>
    intro c m b h
    cases hx : env.assess_content x.content model true with
    | error e =>
      simp [assess_messages_loop, hx] at h
      simp [h.1, h.2.1, h.2.2]
    | ok a =>
      cases hs : a.is_safe with
      | true =>
        simp [assess_messages_loop, hx, hs] at h
        rcases h with ⟨hc, hm, hb⟩ | h
        · simp [hc, hm, hb]
        · obtain ⟨hb, hm, hc⟩ := ih c m b h
          refine ⟨hb, hm, ?_⟩
          simp only [List.map_cons, List.mem_cons]
          exact Or.inr hc
      | false =>
        simp [assess_messages_loop, hx, hs] at h
        simp [h.1, h.2.1, h.2.2]

/-- A forward call never appears among mapped assessment calls. -/
theorem forward_not_mem_assess_map (p : String) (model : String)
    (msgs : List Message) :
    ExtCall.forward p ∉ msgs.map fun m => ExtCall.assess m.content model true := by
  simp

/-- Every assessment call in the prompt screen of the generate pipeline has
is_prompt=true and assesses the request's prompt. -/
theorem generate_screen_calls (env : Env) (greq : GenerateRequest)
    (c m : String) (b : Bool) :
    ExtCall.assess c m b ∈ (assess_generate_prompt env greq).2 →
    b = true ∧ c = greq.prompt := by
  intro h
  unfold assess_generate_prompt at h
  rcases hA : env.assess_content greq.prompt greq.model true with e | a
  · simp [hA] at h
    exact ⟨h.2.2, h.1⟩
  · cases hs : a.is_safe with
    | false =>
      simp [hA, hs] at h
      exact ⟨h.2.2, h.1⟩
    | true =>
      simp [hA, hs] at h
      exact ⟨h.2.2, h.1⟩

/-- Every assessment call in the non-streaming chat response screen has
is_prompt=false and assesses backend-produced text. -/
theorem non_streaming_chat_calls (env : Env) (creq : ChatRequest)
    (c m : String) (b : Bool) :
    ExtCall.assess c m b ∈ (handle_non_streaming_chat env creq).2 →
    b = false ∧ ChatBackendText env creq c := by
  intro h
  rcases hF : env.forward_chat creq with e | bytes
  · simp [handle_non_streaming_chat, hF] at h
  · rcases hP : env.parse_chat bytes with _ | body
    · simp [handle_non_streaming_chat, hF, hP] at h
    · rcases hA : env.assess_content body.message.content creq.model false with e | a
      · simp [handle_non_streaming_chat, hF, hP, hA] at h
        exact ⟨h.2.2, Or.inl ⟨bytes, body, hF, hP, h.1⟩⟩
      · cases hs : a.is_safe with
        | false =>
          simp [handle_non_streaming_chat, hF, hP, hA, hs] at h
          exact ⟨h.2.2, Or.inl ⟨bytes, body, hF, hP, h.1⟩⟩
        | true =>
          simp [handle_non_streaming_chat, hF, hP, hA, hs] at h
          exact ⟨h.2.2, Or.inl ⟨bytes, body, hF, hP, h.1⟩⟩

/-- Every assessment call in the non-streaming generate response screen has
is_prompt=false and assesses backend-produced text. -/
theorem non_streaming_generate_calls (env : Env) (greq : GenerateRequest)
    (c m : String) (b : Bool) :
    ExtCall.assess c m b ∈ (handle_non_streaming_generate env greq).2 →
    b = false ∧ GenerateBackendText env greq c := by
  intro h
  rcases hF : env.forward_generate greq with e | bytes
  · simp [handle_non_streaming_generate, hF] at h
  · rcases hP : env.parse_generate bytes with _ | body
    · simp [handle_non_streaming_generate, hF, hP] at h
    · rcases hA : env.assess_content body.response greq.model false with e | a
      · simp [handle_non_streaming_generate, hF, hP, hA] at h
        exact ⟨h.2.2, Or.inl ⟨bytes, body, hF, hP, h.1⟩⟩
      · cases hs : a.is_safe with
        | false =>
          simp [handle_non_streaming_generate, hF, hP, hA, hs] at h
          exact ⟨h.2.2, Or.inl ⟨bytes, body, hF, hP, h.1⟩⟩
        | true =>
          cases hm : a.is_masked with
          | false =>
            simp [handle_non_streaming_generate, hF, hP, hA, hs, hm] at h
            exact ⟨h.2.2, Or.inl ⟨bytes, body, hF, hP, h.1⟩⟩
          | true =>
            simp [handle_non_streaming_generate, hF, hP, hA, hs, hm] at h
            exact ⟨h.2.2, Or.inl ⟨bytes, body, hF, hP, h.1⟩⟩

/-- C1: for every chat or generate request in which some screened input text
receives an unsafe verdict (all earlier chat messages being safe), the handler
returns a violation-shaped response and the backend forwarder is never
invoked: handle_chat / handle_generate return before any forward call. -/
theorem C1_unsafe_input_blocks_backend (env : Env) :
    (∀ (creq : ChatRequest) (pre : List Message) (bad : Message)
       (rest : List Message),
       creq.messages = pre ++ bad :: rest →
       (∀ m ∈ pre, SafeVerdict env creq.model m.content) →
       UnsafeVerdict env creq.model bad.content →
       ∃ r t, handle_chat env creq = (Outcome.ok (HttpResponse.chatViolation r), t)
         ∧ ∀ p, ExtCall.forward p ∉ t)
    ∧ (∀ greq : GenerateRequest,
       UnsafeVerdict env greq.model greq.prompt →
       ∃ r t, handle_generate env greq = (Outcome.ok (HttpResponse.generateViolation r), t)
         ∧ ∀ p, ExtCall.forward p ∉ t) := by
  constructor
  · intro creq pre bad rest hsplit hsafe hun
    obtain ⟨a, ha, haun⟩ := hun
    have hloop := loop_first_unsafe env creq.model bad rest a ha haun pre hsafe
    refine ⟨{ model := creq.model
              created_at := env.now
              message := { role := "assistant"
                           content := format_security_violation_message a }
              done := true },
            (pre ++ [bad]).map fun m => ExtCall.assess m.content creq.model true,
            ?_, fun p => forward_not_mem_assess_map p creq.model (pre ++ [bad])⟩
    simp [handle_chat, assess_chat_messages, hsplit, hloop,
          build_violation_response_chat]
  · intro greq hun
    obtain ⟨a, ha, haun⟩ := hun
    refine ⟨{ model := greq.model
              created_at := env.now
              response := format_security_violation_message a
              context := none
              done := true },
            [ExtCall.assess greq.prompt greq.model true], ?_, fun p => by simp⟩
    simp [handle_generate, assess_generate_prompt, ha, haun,
          build_violation_response_generate]

/-- C1 witness: at `envDemo` and concrete requests with an unsafe input, both
handlers return a violation response with no forward call in the trace. -/
theorem C1_witness :
    (∃ r t, handle_chat envDemo reqUnsafeChat =
       (Outcome.ok (HttpResponse.chatViolation r), t) ∧ ∀ p, ExtCall.forward p ∉ t)
    ∧ (∃ r t, handle_generate envDemo reqUnsafeGen =
       (Outcome.ok (HttpResponse.generateViolation r), t) ∧ ∀ p, ExtCall.forward p ∉ t) :=
  ⟨(C1_unsafe_input_blocks_backend envDemo).1 reqUnsafeChat
      [{ role := "user", content := "hello" }]
      { role := "system", content := "bad" } [] rfl
      (by
        intro m hm
        rcases List.mem_singleton.mp hm with rfl
        exact ⟨_, rfl, rfl⟩)
      ⟨_, rfl, rfl⟩,
   (C1_unsafe_input_blocks_backend envDemo).2 reqUnsafeGen ⟨_, rfl, rfl⟩⟩

/-- C3: the claim says a missing `stream` field is replaced by a fixed policy
default and the handler completes normally.  The code instead calls
`request.stream.unwrap()` (chat.rs line 70, generate.rs line 48), which
aborts on `None`: with every screened input safe, both handlers crash on a
request whose `stream` field is absent. -/
theorem C3_stream_none_crashes :
    handle_chat envDemo reqStreamNoneChat =
      (Outcome.crash, [ExtCall.assess "hello" "m" true])
    ∧ handle_generate envDemo reqStreamNoneGen =
      (Outcome.crash, [ExtCall.assess "hello" "m" true]) := by
  constructor <;> rfl

/-- C2 counterexample: the claim also covers the chat path, but
`handle_non_streaming_chat` has no is_masked branch.  At this concrete input
the verdict on the backend chat content is safe with is_masked=true and
final_content "masked-out", yet the handler delivers the original backend
bytes [10, 20], whose parsed content "maskme" differs from final_content. -/
theorem C2_chat_ignores_masking :
    envDemo.forward_chat reqMaskChat = Except.ok [10, 20]
    ∧ envDemo.parse_chat [10, 20] = some respMaskChat
    ∧ envDemo.assess_content respMaskChat.message.content reqMaskChat.model false =
        Except.ok { is_safe := true, is_masked := true
                    final_content := "masked-out", violation_detail := none }
    ∧ (handle_non_streaming_chat envDemo reqMaskChat).1 =
        Outcome.ok (HttpResponse.json [10, 20])
    ∧ respMaskChat.message.content ≠ "masked-out" := by
  refine ⟨rfl, rfl, rfl, rfl, ?_⟩
  decide

/-- C2 (amended): for every non-streaming backend response whose verdict is
safe with is_masked=true, the generate path (handle_non_streaming_generate)
delivers the re-serialized body whose content is the verdict's
final_content; the chat path (handle_non_streaming_chat) ignores is_masked
and delivers the original backend bytes unchanged. -/
theorem C2_masked_content_amended (env : Env) :
    (∀ (greq : GenerateRequest) (bytes : List Nat) (body : GenerateResponse)
       (a : AssessmentResult),
       env.forward_generate greq = Except.ok bytes →
       env.parse_generate bytes = some body →
       env.assess_content body.response greq.model false = Except.ok a →
       a.is_safe = true → a.is_masked = true →
       (handle_non_streaming_generate env greq).1 =
         Outcome.ok (HttpResponse.json
           (env.serialize_generate { body with response := a.final_content })))
    ∧ (∀ (creq : ChatRequest) (bytes : List Nat) (body : ChatResponse)
       (a : AssessmentResult),
       env.forward_chat creq = Except.ok bytes →
       env.parse_chat bytes = some body →
       env.assess_content body.message.content creq.model false = Except.ok a →
       a.is_safe = true → a.is_masked = true →
       (handle_non_streaming_chat env creq).1 =
         Outcome.ok (HttpResponse.json bytes)) := by
  constructor
  · intro greq bytes body a hF hP hA hs hm
    simp [handle_non_streaming_generate, hF, hP, hA, hs, hm, build_json_response]
  · intro creq bytes body a hF hP hA hs hm
    simp [handle_non_streaming_chat, hF, hP, hA, hs, build_json_response]

/-- C2 witness: at `envDemo`, the masked generate response is delivered
re-serialized with final_content, while the masked chat response is
delivered as the original backend bytes. -/
theorem C2_witness :
    (handle_non_streaming_generate envDemo reqMaskGen).1 =
      Outcome.ok (HttpResponse.json
        (envDemo.serialize_generate { bodyMaskGen with response := "masked-out" }))
    ∧ (handle_non_streaming_chat envDemo reqMaskChat).1 =
      Outcome.ok (HttpResponse.json [10, 20]) :=
  ⟨(C2_masked_content_amended envDemo).1 reqMaskGen [11, 21] bodyMaskGen _
     rfl rfl rfl rfl rfl,
   (C2_masked_content_amended envDemo).2 reqMaskChat [10, 20] respMaskChat _
     rfl rfl rfl rfl rfl⟩

/-- C4: for every non-streaming backend response whose verdict is safe and
not masked, the body delivered to the client is byte-for-byte the body
received from the backend (no re-serialization), on both paths. -/
theorem C4_safe_unmasked_verbatim (env : Env) :
    (∀ (creq : ChatRequest) (bytes : List Nat) (body : ChatResponse)
       (a : AssessmentResult),
       env.forward_chat creq = Except.ok bytes →
       env.parse_chat bytes = some body →
       env.assess_content body.message.content creq.model false = Except.ok a →
       a.is_safe = true → a.is_masked = false →
       (handle_non_streaming_chat env creq).1 =
         Outcome.ok (HttpResponse.json bytes))
    ∧ (∀ (greq : GenerateRequest) (bytes : List Nat) (body : GenerateResponse)
       (a : AssessmentResult),
       env.forward_generate greq = Except.ok bytes →
       env.parse_generate bytes = some body →
       env.assess_content body.response greq.model false = Except.ok a →
       a.is_safe = true → a.is_masked = false →
       (handle_non_streaming_generate env greq).1 =
         Outcome.ok (HttpResponse.json bytes)) := by
  constructor
  · intro creq bytes body a hF hP hA hs hm
    simp [handle_non_streaming_chat, hF, hP, hA, hs, build_json_response]
  · intro greq bytes body a hF hP hA hs hm
    simp [handle_non_streaming_generate, hF, hP, hA, hs, hm, build_json_response]

/-- C4 witness: at `envDemo`, safe unmasked chat and generate responses are
delivered as the original backend bytes. -/
theorem C4_witness :
    (handle_non_streaming_chat envDemo reqPlainChat).1 =
      Outcome.ok (HttpResponse.json [1, 2])
    ∧ (handle_non_streaming_generate envDemo reqPlainGen).1 =
      Outcome.ok (HttpResponse.json [3, 4]) :=
  ⟨(C4_safe_unmasked_verbatim envDemo).1 reqPlainChat [1, 2] bodyPlainChat _
     rfl rfl rfl rfl rfl,
   (C4_safe_unmasked_verbatim envDemo).2 reqPlainGen [3, 4] bodyPlainGen _
     rfl rfl rfl rfl rfl⟩

/-- C5: for every unsafe verdict on a non-streaming backend response, the
delivered content is the standard formatted violation message — never the
verdict's final_content — even when the verdict also has is_masked=true
(no constraint on is_masked appears in the hypotheses: the unsafe branch is
checked first on both paths). -/
theorem C5_unsafe_overrides_masking (env : Env) :
    (∀ (creq : ChatRequest) (bytes : List Nat) (body : ChatResponse)
       (a : AssessmentResult),
       env.forward_chat creq = Except.ok bytes →
       env.parse_chat bytes = some body →
       env.assess_content body.message.content creq.model false = Except.ok a →
       a.is_safe = false →
       (handle_non_streaming_chat env creq).1 =
         Outcome.ok (HttpResponse.chatViolation
           { body with message := { role := body.message.role
                                    content := format_security_violation_message a } }))
    ∧ (∀ (greq : GenerateRequest) (bytes : List Nat) (body : GenerateResponse)
       (a : AssessmentResult),
       env.forward_generate greq = Except.ok bytes →
       env.parse_generate bytes = some body →
       env.assess_content body.response greq.model false = Except.ok a →
       a.is_safe = false →
       (handle_non_streaming_generate env greq).1 =
         Outcome.ok (HttpResponse.generateViolation
           { body with response := format_security_violation_message a })) := by
  constructor
  · intro creq bytes body a hF hP hA hs
    simp [handle_non_streaming_chat, hF, hP, hA, hs, build_violation_response_chat]
  · intro greq bytes body a hF hP hA hs
    simp [handle_non_streaming_generate, hF, hP, hA, hs,
          build_violation_response_generate]

/-- C5 witness: at `envDemo` the unsafe backend verdict also carries
is_masked=true and final_content "fc", yet both handlers deliver the
formatted violation message, not "fc". -/
theorem C5_witness :
    (handle_non_streaming_chat envDemo reqBadChat).1 =
      Outcome.ok (HttpResponse.chatViolation
        { bodyBadChat with
          message := { role := bodyBadChat.message.role
                       content := format_security_violation_message
                         { is_safe := false, is_masked := true
                           final_content := "fc", violation_detail := some "injection" } } })
    ∧ (handle_non_streaming_generate envDemo reqBadGen).1 =
      Outcome.ok (HttpResponse.generateViolation
        { bodyBadGen with
          response := format_security_violation_message
            { is_safe := false, is_masked := true
              final_content := "fc", violation_detail := some "injection" } }) :=
  ⟨(C5_unsafe_overrides_masking envDemo).1 reqBadChat [30] bodyBadChat _
     rfl rfl rfl rfl,
   (C5_unsafe_overrides_masking envDemo).2 reqBadGen [31] bodyBadGen _
     rfl rfl rfl rfl⟩

/-- C6: for every unsafe verdict found during prompt screening, the
constructed violation response has the response type matching the request
type, done=true, content the formatted violation message derived from the
verdict, model the request's model, and created_at the construction-time
timestamp. -/
theorem C6_violation_response_shape (env : Env) :
    (∀ (creq : ChatRequest) (pre : List Message) (bad : Message)
       (rest : List Message) (a : AssessmentResult),
       creq.messages = pre ++ bad :: rest →
       (∀ m ∈ pre, SafeVerdict env creq.model m.content) →
       env.assess_content bad.content creq.model true = Except.ok a →
       a.is_safe = false →
       ∃ t, handle_chat env creq =
         (Outcome.ok (HttpResponse.chatViolation
           { model := creq.model
             created_at := env.now
             message := { role := "assistant"
                          content := format_security_violation_message a }
             done := true }), t))
    ∧ (∀ (greq : GenerateRequest) (a : AssessmentResult),
       env.assess_content greq.prompt greq.model true = Except.ok a →
       a.is_safe = false →
       ∃ t, handle_generate env greq =
         (Outcome.ok (HttpResponse.generateViolation
           { model := greq.model
             created_at := env.now
             response := format_security_violation_message a
             context := none
             done := true }), t)) := by
  constructor
  · intro creq pre bad rest a hsplit hsafe ha hun
    have hloop := loop_first_unsafe env creq.model bad rest a ha hun pre hsafe
    refine ⟨(pre ++ [bad]).map fun m => ExtCall.assess m.content creq.model true, ?_⟩
    simp [handle_chat, assess_chat_messages, hsplit, hloop,
          build_violation_response_chat]
  · intro greq a ha hun
    refine ⟨[ExtCall.assess greq.prompt greq.model true], ?_⟩
    simp [handle_generate, assess_generate_prompt, ha, hun,
          build_violation_response_generate]

/-- C6 witness: at `envDemo`, the violation responses built for the unsafe
chat and generate inputs have the stated shape. -/
theorem C6_witness :
    (∃ t, handle_chat envDemo reqUnsafeChat =
      (Outcome.ok (HttpResponse.chatViolation
        { model := reqUnsafeChat.model
          created_at := envDemo.now
          message := { role := "assistant"
                       content := format_security_violation_message
                         { is_safe := false, is_masked := true
                           final_content := "fc", violation_detail := some "injection" } }
          done := true }), t))
    ∧ (∃ t, handle_generate envDemo reqUnsafeGen =
      (Outcome.ok (HttpResponse.generateViolation
        { model := reqUnsafeGen.model
          created_at := envDemo.now
          response := format_security_violation_message
            { is_safe := false, is_masked := true
              final_content := "fc", violation_detail := some "injection" }
          context := none
          done := true }), t)) :=
  ⟨(C6_violation_response_shape envDemo).1 reqUnsafeChat
     [{ role := "user", content := "hello" }]
     { role := "system", content := "bad" } [] _ rfl
     (by
       intro m hm
       rcases List.mem_singleton.mp hm with rfl
       exact ⟨_, rfl, rfl⟩)
     rfl rfl,
   (C6_violation_response_shape envDemo).2 reqUnsafeGen _ rfl rfl⟩

/-- C7: for an all-safe chat request the assessment gateway is called exactly
once per message, in request order, and all those calls precede every other
external call (in particular any backend forward); for a request with an
unsafe message, screening stops at the first unsafe verdict: the whole trace
covers exactly the messages up to and including it. -/
theorem C7_screening_order_failfast (env : Env) (creq : ChatRequest) :
    ((∀ m ∈ creq.messages, SafeVerdict env creq.model m.content) →
      ∃ res t2, handle_chat env creq =
        (res, (creq.messages.map fun m => ExtCall.assess m.content creq.model true) ++ t2))
    ∧ (∀ (pre : List Message) (bad : Message) (rest : List Message),
        creq.messages = pre ++ bad :: rest →
        (∀ m ∈ pre, SafeVerdict env creq.model m.content) →
        UnsafeVerdict env creq.model bad.content →
        ∃ res, handle_chat env creq =
          (res, (pre ++ [bad]).map fun m => ExtCall.assess m.content creq.model true)) := by
  constructor
  · intro h
    have hloop : assess_chat_messages env creq =
        (Outcome.ok none,
         creq.messages.map fun m => ExtCall.assess m.content creq.model true) :=
      loop_all_safe env creq.model creq.messages h
    cases hS : creq.stream with
    | none =>
      refine ⟨Outcome.crash, [], ?_⟩
      simp [handle_chat, hloop, hS]
    | some b =>
      cases b with
      | true =>
        refine ⟨(handle_streaming_chat env creq).1,
                (handle_streaming_chat env creq).2, ?_⟩
        simp [handle_chat, hloop, hS]
      | false =>
        refine ⟨(handle_non_streaming_chat env creq).1,
                (handle_non_streaming_chat env creq).2, ?_⟩
        simp [handle_chat, hloop, hS]
  · intro pre bad rest hsplit hsafe hun
    obtain ⟨a, ha, haun⟩ := hun
    have hloop := loop_first_unsafe env creq.model bad rest a ha haun pre hsafe
    refine ⟨Outcome.ok (HttpResponse.chatViolation
      { model := creq.model
        created_at := env.now
        message := { role := "assistant"
                     content := format_security_violation_message a }
        done := true }), ?_⟩
    simp [handle_chat, assess_chat_messages, hsplit, hloop,
          build_violation_response_chat]

/-- C7 witness: at `envDemo` the all-safe two-message chat request is screened
with one in-order gateway call per message before everything else. -/
theorem C7_witness :
    ∃ res t2, handle_chat envDemo reqAllSafeChat =
      (res, (reqAllSafeChat.messages.map
        fun m => ExtCall.assess m.content reqAllSafeChat.model true) ++ t2) :=
  (C7_screening_order_failfast envDemo reqAllSafeChat).1 (by
    intro m hm
    rcases List.mem_cons.mp hm with rfl | hm
    · exact ⟨_, rfl, rfl⟩
    · rcases List.mem_singleton.mp hm with rfl
      exact ⟨_, rfl, rfl⟩)

/-- C9: whenever an assessment-gateway call fails, the handler propagates the
error and delivers no content response, at each of the four assessment sites
of the non-streaming pipelines: chat prompt screening (all earlier messages
safe) and generate prompt screening, where additionally the backend is never
called (fail-closed), and the chat and generate response screens, where the
already received backend content is discarded and the error returned.
(The streaming screen is spec-modelled without an assessment-failure notion,
so mid-stream failures are outside this statement.) -/
theorem C9_assessment_error_fail_closed (env : Env) :
    (∀ (creq : ChatRequest) (pre : List Message) (bad : Message)
       (rest : List Message) (e : ApiError),
       creq.messages = pre ++ bad :: rest →
       (∀ m ∈ pre, SafeVerdict env creq.model m.content) →
       env.assess_content bad.content creq.model true = Except.error e →
       ∃ t, handle_chat env creq = (Outcome.err e, t)
         ∧ ∀ p, ExtCall.forward p ∉ t)
    ∧ (∀ (greq : GenerateRequest) (e : ApiError),
       env.assess_content greq.prompt greq.model true = Except.error e →
       ∃ t, handle_generate env greq = (Outcome.err e, t)
         ∧ ∀ p, ExtCall.forward p ∉ t)
    ∧ (∀ (creq : ChatRequest) (bytes : List Nat) (body : ChatResponse)
       (e : ApiError),
       env.forward_chat creq = Except.ok bytes →
       env.parse_chat bytes = some body →
       env.assess_content body.message.content creq.model false = Except.error e →
       (handle_non_streaming_chat env creq).1 = Outcome.err e)
    ∧ (∀ (greq : GenerateRequest) (bytes : List Nat) (body : GenerateResponse)
       (e : ApiError),
       env.forward_generate greq = Except.ok bytes →
       env.parse_generate bytes = some body →
       env.assess_content body.response greq.model false = Except.error e →
       (handle_non_streaming_generate env greq).1 = Outcome.err e) := by
  refine ⟨?_, ?_, ?_, ?_⟩
  · intro creq pre bad rest e hsplit hsafe he
    have hloop := loop_error env creq.model bad rest e he pre hsafe
    refine ⟨(pre ++ [bad]).map fun m => ExtCall.assess m.content creq.model true,
            ?_, fun p => forward_not_mem_assess_map p creq.model (pre ++ [bad])⟩
    simp [handle_chat, assess_chat_messages, hsplit, hloop]
  · intro greq e he
    refine ⟨[ExtCall.assess greq.prompt greq.model true], ?_, fun p => by simp⟩
    simp [handle_generate, assess_generate_prompt, he]
  · intro creq bytes body e hF hP hA
    simp [handle_non_streaming_chat, hF, hP, hA]
  · intro greq bytes body e hF hP hA
    simp [handle_non_streaming_generate, hF, hP, hA]

/-- C9 witness: at `envDemo` a failing assessment during chat or generate
prompt screening is propagated with no forward call, and a failing
assessment of a chat or generate backend response is propagated instead of
the content. -/
theorem C9_witness :
    (∃ t, handle_chat envDemo reqBoomChat =
       (Outcome.err (ApiError.assessmentServiceError "security service down"), t)
       ∧ ∀ p, ExtCall.forward p ∉ t)
    ∧ (∃ t, handle_generate envDemo reqBoomGenPrompt =
       (Outcome.err (ApiError.assessmentServiceError "security service down"), t)
       ∧ ∀ p, ExtCall.forward p ∉ t)
    ∧ (handle_non_streaming_chat envDemo reqBoomChatResp).1 =
       Outcome.err (ApiError.assessmentServiceError "security service down")
    ∧ (handle_non_streaming_generate envDemo reqBoomGen).1 =
       Outcome.err (ApiError.assessmentServiceError "security service down") :=
  ⟨(C9_assessment_error_fail_closed envDemo).1 reqBoomChat []
     { role := "user", content := "boom" } [] _ rfl
     (fun m hm => absurd hm (List.not_mem_nil m)) rfl,
   (C9_assessment_error_fail_closed envDemo).2.1 reqBoomGenPrompt _ rfl,
   (C9_assessment_error_fail_closed envDemo).2.2.1 reqBoomChatResp [40]
     bodyBoomChat _ rfl rfl rfl,
   (C9_assessment_error_fail_closed envDemo).2.2.2 reqBoomGen [41] bodyBoomGen _
     rfl rfl rfl⟩

/-- C10: for every chat request in which prompt screening finds an unsafe
message, the violation ChatResponse's message carries role "assistant",
whatever the role of the message that triggered the violation. -/
theorem C10_violation_role_assistant (env : Env) (creq : ChatRequest)
    (pre : List Message) (bad : Message) (rest : List Message)
    (hsplit : creq.messages = pre ++ bad :: rest)
    (hsafe : ∀ m ∈ pre, SafeVerdict env creq.model m.content)
    (hun : UnsafeVerdict env creq.model bad.content) :
    ∃ r t, handle_chat env creq = (Outcome.ok (HttpResponse.chatViolation r), t)
      ∧ r.message.role = "assistant" := by
  obtain ⟨a, ha, haun⟩ := hun
  have hloop := loop_first_unsafe env creq.model bad rest a ha haun pre hsafe
  refine ⟨{ model := creq.model
            created_at := env.now
            message := { role := "assistant"
                         content := format_security_violation_message a }
            done := true },
          (pre ++ [bad]).map fun m => ExtCall.assess m.content creq.model true,
          ?_, rfl⟩
  simp [handle_chat, assess_chat_messages, hsplit, hloop,
        build_violation_response_chat]

/-- C10 witness: at `envDemo`, the unsafe message of `reqUnsafeChat` has role
"system", yet the violation response's message role is "assistant". -/
theorem C10_witness :
    ∃ r t, handle_chat envDemo reqUnsafeChat =
      (Outcome.ok (HttpResponse.chatViolation r), t)
      ∧ r.message.role = "assistant" :=
  C10_violation_role_assistant envDemo reqUnsafeChat
    [{ role := "user", content := "hello" }]
    { role := "system", content := "bad" } [] rfl
    (by
      intro m hm
      rcases List.mem_singleton.mp hm with rfl
      exact ⟨_, rfl, rfl⟩)
    ⟨_, rfl, rfl⟩

/-- Every assessment call in the chat prompt screen has is_prompt=true and
assesses the content of one of the request's messages. -/
theorem chat_screen_calls (env : Env) (creq : ChatRequest)
    (c m : String) (b : Bool) :
    ExtCall.assess c m b ∈ (assess_chat_messages env creq).2 →
    b = true ∧ c ∈ creq.messages.map Message.content := by
  intro h
  obtain ⟨hb, _, hc⟩ := loop_calls env creq.model creq.messages c m b h
  exact ⟨hb, hc⟩

/-- C8: in every assessment-gateway call made by the chat and generate
pipelines, the is_prompt flag is true only on client-submitted text (a
request message's content, or the request prompt) and false only on
backend-produced text (the parsed non-streaming backend body's content
field, or an accumulated text of the backend's chunk stream). -/
theorem C8_flag_matches_direction (env : Env) :
    (∀ (creq : ChatRequest) (c m : String) (b : Bool),
       ExtCall.assess c m b ∈ (handle_chat env creq).2 →
       (b = true ∧ c ∈ creq.messages.map Message.content)
       ∨ (b = false ∧ ChatBackendText env creq c))
    ∧ (∀ (greq : GenerateRequest) (c m : String) (b : Bool),
       ExtCall.assess c m b ∈ (handle_generate env greq).2 →
       (b = true ∧ c = greq.prompt)
       ∨ (b = false ∧ GenerateBackendText env greq c)) := by
  constructor
  · intro creq c m b hmem
    unfold handle_chat at hmem
    rcases hA : assess_chat_messages env creq with ⟨res, t⟩
    rw [hA] at hmem
    have ht : ExtCall.assess c m b ∈ t →
        b = true ∧ c ∈ creq.messages.map Message.content := by
      intro hx
      exact chat_screen_calls env creq c m b (by rw [hA]; exact hx)
    cases res with
    | err e => exact Or.inl (ht hmem)
    | crash => exact Or.inl (ht hmem)
    | ok o =>
      cases o with
      | some resp => exact Or.inl (ht hmem)
      | none =>
        cases hS : creq.stream with
        | none =>
          rw [hS] at hmem
          exact Or.inl (ht hmem)
        | some bb =>
          cases bb with
          | true =>
            rw [hS] at hmem
            replace hmem : ExtCall.assess c m b ∈
                t ++ (handle_streaming_chat env creq).2 := hmem
            rcases List.mem_append.mp hmem with hL | hR
            · exact Or.inl (ht hL)
            · replace hR : ExtCall.assess c m b ∈
                  ExtCall.forward "/api/chat" ::
                    (env.chat_stream_texts creq).map
                      (fun s => ExtCall.assess s creq.model false) := hR
              rcases List.mem_cons.mp hR with hbad | hR
              · exact absurd hbad (by simp)
              · obtain ⟨s, hs, heq⟩ := List.mem_map.mp hR
                injection heq with hc hm2 hb
                exact Or.inr ⟨hb.symm, Or.inr (hc ▸ hs)⟩
          | false =>
            rw [hS] at hmem
            replace hmem : ExtCall.assess c m b ∈
                t ++ (handle_non_streaming_chat env creq).2 := hmem
            rcases List.mem_append.mp hmem with hL | hR
            · exact Or.inl (ht hL)
            · exact Or.inr (non_streaming_chat_calls env creq c m b hR)
  · intro greq c m b hmem
    unfold handle_generate at hmem
    rcases hA : assess_generate_prompt env greq with ⟨res, t⟩
    rw [hA] at hmem
    have ht : ExtCall.assess c m b ∈ t → b = true ∧ c = greq.prompt := by
      intro hx
      exact generate_screen_calls env greq c m b (by rw [hA]; exact hx)
    cases res with
    | err e => exact Or.inl (ht hmem)
    | crash => exact Or.inl (ht hmem)
    | ok o =>
      cases o with
      | some resp => exact Or.inl (ht hmem)
      | none =>
        cases hS : greq.stream with
        | none =>
          rw [hS] at hmem
          exact Or.inl (ht hmem)
        | some bb =>
          cases bb with
          | true =>
            rw [hS] at hmem
            replace hmem : ExtCall.assess c m b ∈
                t ++ (handle_streaming_generate env greq).2 := hmem
            rcases List.mem_append.mp hmem with hL | hR
            · exact Or.inl (ht hL)
            · replace hR : ExtCall.assess c m b ∈
                  ExtCall.forward "/api/generate" ::
                    (env.generate_stream_texts greq).map
                      (fun s => ExtCall.assess s greq.model false) := hR
              rcases List.mem_cons.mp hR with hbad | hR
              · exact absurd hbad (by simp)
              · obtain ⟨s, hs, heq⟩ := List.mem_map.mp hR
                injection heq with hc hm2 hb
                exact Or.inr ⟨hb.symm, Or.inr (hc ▸ hs)⟩
          | false =>
            rw [hS] at hmem
            replace hmem : ExtCall.assess c m b ∈
                t ++ (handle_non_streaming_generate env greq).2 := hmem
            rcases List.mem_append.mp hmem with hL | hR
            · exact Or.inl (ht hL)
            · exact Or.inr (non_streaming_generate_calls env greq c m b hR)

/-- C8 witness: at `envDemo`, the screening call on the second message of the
all-safe chat request appears in the trace with is_prompt=true on
client-submitted text. -/
theorem C8_witness :
    (true = true ∧ "again" ∈ reqAllSafeChat.messages.map Message.content)
    ∨ (true = false ∧ ChatBackendText envDemo reqAllSafeChat "again") :=
  (C8_flag_matches_direction envDemo).1 reqAllSafeChat "again" "m" true (by decide)

end PanwOllama
